import Mathlib

/-!
Verification of the `jsonrpc-lite` JSON-RPC 2.0 message codec.

The development shallowly embeds the library's data model and its
classification/parsing pipeline (`src/jsonrpc/id.rs`, `params.rs`,
`error.rs`, `rpc_methods.rs`, `rpc_object.rs`).

Modelling conventions:
* The generic JSON value tree (serde_json's `Value`) is modelled by `Json`
  below.  JSON numbers are modelled as integers (`Int`); the library's `Id`
  and error codes are `i64`, and every number the library itself produces is
  an integer.  Where the Rust code deserializes an `i64`, the model checks
  the `i64` range explicitly.
* Turning raw text/bytes into a `Json` tree is done by the external
  `serde_json` parser, which is out of scope for the library.  A function
  such as `JsonRpc::from_str` is therefore modelled as taking the *outcome*
  of that external parse: `some v` when the input text is syntactically
  valid JSON denoting the tree `v`, and `none` when the input is not valid
  JSON at all.  `from_slice` and `from_reader` (and their `_vec` variants)
  are byte-for-byte the same composition in the source and are covered by
  the same model.
* serde_json object maps have unique keys; object field lists in `Json.obj`
  are read through `jlookup`, which returns the first binding of a key.
* Serde's derived `#[serde(untagged)]` deserializer tries the variants in
  declaration order and commits to the first that succeeds; structs ignore
  unknown fields; `#[serde(default)]` on an `Option` field makes a missing
  key deserialize to `None`, and an explicit JSON `null` also deserializes
  to `None`.
-/

namespace JsonRpcLite

/-- A generic JSON value tree (serde_json `Value`, integer numbers only). -/
inductive Json where
  | null
  | bool (b : Bool)
  | num (n : Int)
  | str (s : String)
  | arr (elems : List Json)
  | obj (fields : List (String × Json))

/-- First binding of `key` in an object's field list (serde_json maps have
unique keys, so this is the map lookup). -/
def jlookup : List (String × Json) → String → Option Json
  | [], _ => Option.none
  | (k, v) :: rest, key => if k = key then some v else jlookup rest key

/-- The i64 range check performed by serde when deserializing an `i64`. -/
def isI64 (n : Int) : Bool := decide (-(2 ^ 63) ≤ n) && decide (n < 2 ^ 63)

/-- Top-level array accessor: `from_str::<Vec<Value>>` succeeds exactly on
inputs whose JSON tree is an array, yielding its elements. -/
def asArray : Json → Option (List Json)
  | .arr elems => some elems
  | _ => Option.none

/-- Key list of an object value (used to state field-presence properties). -/
def jsonKeys : Json → Option (List String)
  | .obj fields => some (fields.map Prod.fst)
  | _ => Option.none

/-- `Id` from `src/jsonrpc/id.rs`: `Num(i64) | Str(String) | None`. -/
inductive Id where
  | Num (n : Int)
  | Str (s : String)
  | None
deriving DecidableEq

/-- `Params` from `src/jsonrpc/params.rs`:
`Array(Vec<Value>) | Map(Map<String, Value>) | None`. -/
inductive Params where
  | Array (elems : List Json)
  | Map (fields : List (String × Json))
  | None

/-- `ErrorCode` from `src/jsonrpc/error.rs`. -/
inductive ErrorCode where
  | ParseError
  | InvalidRequest
  | MethodNotFound
  | InvalidParams
  | InternalError
  | ServerError (code : Int)
deriving DecidableEq

/-- `ErrorCode::code` from `src/jsonrpc/error.rs`. -/
def ErrorCode.code : ErrorCode → Int
  | .ParseError => -32700
  | .InvalidRequest => -32600
  | .MethodNotFound => -32601
  | .InvalidParams => -32602
  | .InternalError => -32603
  | .ServerError code => code

/-- `ErrorCode::as_str` from `src/jsonrpc/error.rs`. -/
def ErrorCode.as_str : ErrorCode → String
  | .ParseError => "Parse error"
  | .InvalidRequest => "Invalid request"
  | .MethodNotFound => "Method not found"
  | .InvalidParams => "Invalid params"
  | .InternalError => "Internal error"
  | .ServerError _ => "Server error"

/-- The JSON-RPC Error Object (`struct Error` in `src/jsonrpc/error.rs`,
re-exported by the crate as `RpcError`): `{ code: i64, message: String,
data: Option<Value> }`. -/
structure RpcError where
  code : Int
  message : String
  data : Option Json

/-- `Error::custom` from `src/jsonrpc/error.rs`. -/
def RpcError.custom (code : Int) (msg : String) : RpcError :=
  { code := code, message := msg, data := Option.none }

/-- `Error::new` from `src/jsonrpc/error.rs` (uses `ErrorCode`'s `Display`,
which prints `as_str`). -/
def RpcError.new (code : ErrorCode) : RpcError :=
  RpcError.custom code.code code.as_str

/-- `Error::parse_error` from `src/jsonrpc/error.rs`. -/
def RpcError.parse_error : RpcError := RpcError.new .ParseError

/-- `Error::invalid_request` from `src/jsonrpc/error.rs`. -/
def RpcError.invalid_request : RpcError := RpcError.new .InvalidRequest

/-- `Error::method_not_found` from `src/jsonrpc/error.rs`. -/
def RpcError.method_not_found : RpcError := RpcError.new .MethodNotFound

/-- `Error::invalid_params` from `src/jsonrpc/error.rs`. -/
def RpcError.invalid_params : RpcError := RpcError.new .InvalidParams

/-- `Error::internal_error` from `src/jsonrpc/error.rs`. -/
def RpcError.internal_error : RpcError := RpcError.new .InternalError

/-- `Error::server_error` from `src/jsonrpc/error.rs`. -/
def RpcError.server_error (code : Int) : RpcError := RpcError.new (.ServerError code)

/-- `Error::with_data` from `src/jsonrpc/error.rs`. -/
def RpcError.with_data (e : RpcError) (data : Option Json) : RpcError :=
  { e with data := data }

/-- `struct Request` from `src/jsonrpc/rpc_methods.rs`. -/
structure Request where
  jsonrpc : String
  method : String
  params : Option Params
  id : Id

/-- `struct Notification` from `src/jsonrpc/rpc_methods.rs` (no id field). -/
structure Notification where
  jsonrpc : String
  method : String
  params : Option Params

/-- `struct Success` from `src/jsonrpc/rpc_methods.rs`. -/
structure Success where
  jsonrpc : String
  result : Json
  id : Id

/-- `struct Error` from `src/jsonrpc/rpc_methods.rs` (the Error response
object, embedding an `RpcError`). -/
structure Error where
  jsonrpc : String
  error : RpcError
  id : Id

/-- `enum JsonRpc` from `src/jsonrpc/rpc_object.rs`; `#[serde(untagged)]`
with the variants in this declaration order. -/
inductive JsonRpc where
  | Request (v : Request)
  | Notification (v : Notification)
  | Success (v : Success)
  | Error (v : Error)

/-- `JsonRpc::request` from `src/jsonrpc/rpc_object.rs`. -/
def JsonRpc.request (id : Id) (method : String) : JsonRpc :=
  .Request { jsonrpc := "2.0", method := method, params := Option.none, id := id }

/-- `JsonRpc::request_with_params` from `src/jsonrpc/rpc_object.rs`. -/
def JsonRpc.request_with_params (id : Id) (method : String) (params : Params) : JsonRpc :=
  .Request { jsonrpc := "2.0", method := method, params := some params, id := id }

/-- `JsonRpc::notification` from `src/jsonrpc/rpc_object.rs`. -/
def JsonRpc.notification (method : String) : JsonRpc :=
  .Notification { jsonrpc := "2.0", method := method, params := Option.none }

/-- `JsonRpc::notification_with_params` from `src/jsonrpc/rpc_object.rs`. -/
def JsonRpc.notification_with_params (method : String) (params : Params) : JsonRpc :=
  .Notification { jsonrpc := "2.0", method := method, params := some params }

/-- `JsonRpc::success` from `src/jsonrpc/rpc_object.rs`. -/
def JsonRpc.success (id : Id) (result : Json) : JsonRpc :=
  .Success { jsonrpc := "2.0", result := result, id := id }

/-- `JsonRpc::error` from `src/jsonrpc/rpc_object.rs`. -/
def JsonRpc.error (id : Id) (error : RpcError) : JsonRpc :=
  .Error { jsonrpc := "2.0", error := error, id := id }

/-- `JsonRpc::get_id` from `src/jsonrpc/rpc_object.rs`. -/
def JsonRpc.get_id : JsonRpc → Option Id
  | .Request v => some v.id
  | .Success v => some v.id
  | .Error v => some v.id
  | _ => Option.none

/-- `JsonRpc::get_version` from `src/jsonrpc/rpc_object.rs`. -/
def JsonRpc.get_version : JsonRpc → String
  | .Request v => v.jsonrpc
  | .Notification v => v.jsonrpc
  | .Success v => v.jsonrpc
  | .Error v => v.jsonrpc

/-- `impl From<Value> for Params` from `src/jsonrpc/params.rs`. -/
def Params.from_value : Json → Params
  | .arr elems => Params.Array elems
  | .obj fields => Params.Map fields
  | _ => Params.None

/-- Serde serialization of `Id` (`#[serde(untagged)]`): a number, a string,
or JSON `null` for the unit variant. -/
def Id.toJson : Id → Json
  | .Num n => .num n
  | .Str s => .str s
  | .None => .null

/-- Serde serialization of `Params` (`#[serde(untagged)]`): an array, an
object, or JSON `null` for the unit variant. -/
def Params.toJson : Params → Json
  | .Array elems => .arr elems
  | .Map fields => .obj fields
  | .None => .null

/-- Serde serialization of the error object: `data` is omitted when absent
(`#[serde(skip_serializing_if = "Option::is_none")]`), never emitted as
null. -/
def RpcError.toJson (e : RpcError) : Json :=
  .obj ([("code", .num e.code), ("message", .str e.message)] ++
    (match e.data with
     | some d => [("data", d)]
     | Option.none => []))

/-- Serde serialization of `Request` (fields in declaration order; `params`
omitted when absent). -/
def Request.toJson (r : Request) : Json :=
  .obj ([("jsonrpc", .str r.jsonrpc), ("method", .str r.method)] ++
    (match r.params with
     | some p => [("params", p.toJson)]
     | Option.none => []) ++ [("id", r.id.toJson)])

/-- Serde serialization of `Notification` (no id key at all; `params`
omitted when absent). -/
def Notification.toJson (n : Notification) : Json :=
  .obj ([("jsonrpc", .str n.jsonrpc), ("method", .str n.method)] ++
    (match n.params with
     | some p => [("params", p.toJson)]
     | Option.none => []))

/-- Serde serialization of `Success`. -/
def Success.toJson (s : Success) : Json :=
  .obj [("jsonrpc", .str s.jsonrpc), ("result", s.result), ("id", s.id.toJson)]

/-- Serde serialization of the `Error` response object. -/
def Error.toJson (e : Error) : Json :=
  .obj [("jsonrpc", .str e.jsonrpc), ("error", e.error.toJson), ("id", e.id.toJson)]

/-- Serde serialization of `JsonRpc` (`#[serde(untagged)]`: the variant's
own serialization). -/
def JsonRpc.toJson : JsonRpc → Json
  | .Request v => v.toJson
  | .Notification v => v.toJson
  | .Success v => v.toJson
  | .Error v => v.toJson

/-- Serde deserialization of a `String` field: only a JSON string. -/
def decodeString : Json → Option String
  | .str s => some s
  | _ => Option.none

/-- Serde deserialization of an `i64` field: an integer number in i64
range. -/
def decodeI64 (v : Json) : Option Int :=
  match v with
  | .num n => if isI64 n then some n else Option.none
  | _ => Option.none

/-- Serde deserialization of `Id` (`#[serde(untagged)]`, variants in
declaration order): `Num(i64)`, then `Str(String)`, then the unit variant
`None` from JSON `null`. -/
def decodeId (v : Json) : Option Id :=
  match v with
  | .num n => if isI64 n then some (Id.Num n) else Option.none
  | .str s => some (Id.Str s)
  | .null => some Id.None
  | _ => Option.none

/-- Serde deserialization of a `#[serde(default)] params: Option<Params>`
field, given the looked-up key: a missing key defaults to `None`, JSON
`null` is taken by `Option` as `None`, and otherwise the untagged `Params`
must match (array or object); a scalar fails the whole struct. -/
def decodeParamsField : Option Json → Option (Option Params)
  | Option.none => some Option.none
  | some .null => some Option.none
  | some (.arr elems) => some (some (Params.Array elems))
  | some (.obj fields) => some (some (Params.Map fields))
  | some _ => Option.none

/-- Serde deserialization of a `#[serde(default)] data: Option<Value>`
field, given the looked-up key: a missing key defaults to `None` and JSON
`null` is taken by `Option` as `None`; any other value is kept. -/
def decodeDataField : Option Json → Option Json
  | Option.none => Option.none
  | some .null => Option.none
  | some v => some v

/-- Serde deserialization of the error object `struct Error` of
`src/jsonrpc/error.rs` (unknown keys ignored; `code` and `message`
required; `data` optional). -/
def decodeRpcError (v : Json) : Option RpcError :=
  match v with
  | .obj fields => do
      let code ← decodeI64 (← jlookup fields "code")
      let message ← decodeString (← jlookup fields "message")
      some { code := code, message := message, data := decodeDataField (jlookup fields "data") }
  | _ => Option.none

/-- Serde deserialization of `struct Request` (unknown keys ignored;
`jsonrpc`, `method` and `id` required; `params` optional). -/
def decodeRequest (v : Json) : Option Request :=
  match v with
  | .obj fields => do
      let jsonrpc ← decodeString (← jlookup fields "jsonrpc")
      let method ← decodeString (← jlookup fields "method")
      let params ← decodeParamsField (jlookup fields "params")
      let id ← decodeId (← jlookup fields "id")
      some { jsonrpc := jsonrpc, method := method, params := params, id := id }
  | _ => Option.none

/-- Serde deserialization of `struct Notification` (unknown keys ignored,
so an `id` key of any value is simply dropped). -/
def decodeNotification (v : Json) : Option Notification :=
  match v with
  | .obj fields => do
      let jsonrpc ← decodeString (← jlookup fields "jsonrpc")
      let method ← decodeString (← jlookup fields "method")
      let params ← decodeParamsField (jlookup fields "params")
      some { jsonrpc := jsonrpc, method := method, params := params }
  | _ => Option.none

/-- Serde deserialization of `struct Success` (`result` may be any JSON
value but the key must be present). -/
def decodeSuccess (v : Json) : Option Success :=
  match v with
  | .obj fields => do
      let jsonrpc ← decodeString (← jlookup fields "jsonrpc")
      let result ← jlookup fields "result"
      let id ← decodeId (← jlookup fields "id")
      some { jsonrpc := jsonrpc, result := result, id := id }
  | _ => Option.none

/-- Serde deserialization of the `struct Error` response object. -/
def decodeError (v : Json) : Option Error :=
  match v with
  | .obj fields => do
      let jsonrpc ← decodeString (← jlookup fields "jsonrpc")
      let error ← decodeRpcError (← jlookup fields "error")
      let id ← decodeId (← jlookup fields "id")
      some { jsonrpc := jsonrpc, error := error, id := id }
  | _ => Option.none

/-- Serde's `from_value::<JsonRpc>`: the derived `#[serde(untagged)]`
deserializer tries the variants in declaration order — Request,
Notification, Success, Error — and commits to the first that succeeds. -/
def JsonRpc.from_value (v : Json) : Option JsonRpc :=
  match decodeRequest v with
  | some r => some (.Request r)
  | Option.none =>
    match decodeNotification v with
    | some n => some (.Notification n)
    | Option.none =>
      match decodeSuccess v with
      | some s => some (.Success s)
      | Option.none =>
        match decodeError v with
        | some e => some (.Error e)
        | Option.none => Option.none

/-- Modelled from the spec: the crate-level parse-result error type
(`Error` of the crate root, aliased `JsonRpcErr` in
`src/jsonrpc/mod.rs`) is not under `src/` in the form `rpc_object.rs`
uses; `rpc_object.rs` constructs `JsonRpcErr::InvalidVersionParsed(ver)`
and the spec says the version-mismatch failure is "surfaced as a distinct
failure (carrying the actual string received)". -/
inductive JsonRpcErr where
  | InvalidVersionParsed (ver : String)
deriving DecidableEq

/-- `JsonRpc::check_version` from `src/jsonrpc/rpc_object.rs`. -/
def JsonRpc.check_version (rpc : JsonRpc) : Except JsonRpcErr JsonRpc :=
  if rpc.get_version ≠ "2.0" then
    .error (.InvalidVersionParsed rpc.get_version)
  else
    .ok rpc

/-- `JsonRpc::parse` from `src/jsonrpc/rpc_object.rs`.  The argument is the
outcome of the external `serde_json` text parse (`SerdeResult<Value>`):
`some v` for valid JSON text denoting `v`, `none` for invalid JSON text. -/
def JsonRpc.parse (val : Option Json) : Except JsonRpcErr JsonRpc :=
  match val with
  | some v =>
    match JsonRpc.from_value v with
    | some rpc => rpc.check_version
    | Option.none => .ok (JsonRpc.error Id.None RpcError.invalid_request)
  | Option.none => .ok (JsonRpc.error Id.None RpcError.parse_error)

/-- `JsonRpc::parse_vec` from `src/jsonrpc/rpc_object.rs`.  The argument is
the outcome of the external `from_str::<Vec<Value>>` parse. -/
def JsonRpc.parse_vec (vals : Option (List Json)) : List (Except JsonRpcErr JsonRpc) :=
  match vals with
  | some vals =>
    if vals.isEmpty then
      [.ok (JsonRpc.error Id.None RpcError.invalid_request)]
    else
      vals.map (fun v => JsonRpc.parse (some v))
  | Option.none => [.ok (JsonRpc.error Id.None RpcError.parse_error)]

/-- `JsonRpc::from_str` from `src/jsonrpc/rpc_object.rs`:
`Self::parse(from_str::<Value>(input))`.  The argument models the external
parse outcome of the input text; `from_slice` and `from_reader` delegate
identically. -/
def JsonRpc.from_str (input : Option Json) : Except JsonRpcErr JsonRpc :=
  JsonRpc.parse input

/-- `JsonRpc::from_str_vec` from `src/jsonrpc/rpc_object.rs`:
`Self::parse_vec(from_str::<Vec<Value>>(input))`.  The argument models the
external parse outcome of the input text as a generic JSON tree;
`from_str::<Vec<Value>>` additionally requires the top level to be an
array, which `asArray` captures.  `from_slice_vec` and `from_reader_vec`
delegate identically. -/
def JsonRpc.from_str_vec (input : Option Json) : List (Except JsonRpcErr JsonRpc) :=
  JsonRpc.parse_vec (input.bind asArray)

/-- Wellformedness of a model `Id` as a Rust `Id`: the numeric payload is an
`i64` (the Rust type carries `i64` by construction; the model uses `Int`). -/
def Id.wf : Id → Bool
  | .Num n => isI64 n
  | _ => true

/-- Whether an optional `data` payload survives serde serialization and
deserialization: `Some(Value::Null)` serializes to a `data: null` key,
which `Option<Value>` reads back as `None`. -/
def dataOk : Option Json → Bool
  | some .null => false
  | _ => true

/-- Wellformedness of a model `RpcError` as a Rust `Error`: the code is an
`i64` and the optional data is not an explicit JSON null. -/
def RpcError.wf (e : RpcError) : Bool := isI64 e.code && dataOk e.data

/-- Deserializing the serialization of a wellformed `Id` recovers it. -/
theorem decodeId_toJson (id : Id) (h : id.wf = true) : decodeId id.toJson = some id := by
  cases id <;> simp_all [Id.wf, Id.toJson, decodeId]

/-- Deserializing the serialization of a wellformed error object recovers
it. -/
theorem decodeRpcError_toJson (e : RpcError) (h : e.wf = true) :
    decodeRpcError e.toJson = some e := by
  obtain ⟨c, msg, d⟩ := e
  simp only [RpcError.wf, Bool.and_eq_true] at h
  cases d with
  | none =>
    simp [RpcError.toJson, decodeRpcError, jlookup, decodeI64, decodeString, decodeDataField,
      h.1]
  | some d =>
    cases d <;>
      simp_all [RpcError.toJson, decodeRpcError, jlookup, decodeI64, decodeString,
        decodeDataField, dataOk]

/-- Claim C1: single-object parse failure taxonomy.  An input that is not
syntactically valid JSON makes `from_str` (and `from_slice`/`from_reader`,
which delegate to the same `parse`) return `Ok` of a `JsonRpc::Error` value
embedding `RpcError::parse_error()` (code -32700) with an absent id; an
input that parses as JSON but does not deserialize into any of the four
message shapes returns `Ok` of a `JsonRpc::Error` value embedding
`RpcError::invalid_request()` (code -32600) with an absent id.  Both
failures are normal values (`Ok`), and the two error values are distinct. -/
theorem c1_single_object_failure_taxonomy :
    JsonRpc.from_str Option.none = .ok (JsonRpc.error Id.None RpcError.parse_error) ∧
    (∀ v : Json, JsonRpc.from_value v = Option.none →
      JsonRpc.from_str (some v) = .ok (JsonRpc.error Id.None RpcError.invalid_request)) ∧
    RpcError.parse_error.code = -32700 ∧ RpcError.invalid_request.code = -32600 ∧
    RpcError.parse_error ≠ RpcError.invalid_request := by
  refine ⟨rfl, ?_, rfl, rfl, ?_⟩
  · intro v h
    simp [JsonRpc.from_str, JsonRpc.parse, h]
  · simp [RpcError.parse_error, RpcError.invalid_request, RpcError.new, RpcError.custom,
      ErrorCode.code, ErrorCode.as_str]

/-- Witness for C1: the scalar JSON input `5` deserializes into no message
shape and classifies as the invalid-request error object. -/
theorem c1_single_object_failure_taxonomy_witness :
    JsonRpc.from_value (Json.num 5) = Option.none ∧
    JsonRpc.from_str (some (Json.num 5)) =
      .ok (JsonRpc.error Id.None RpcError.invalid_request) :=
  ⟨rfl, c1_single_object_failure_taxonomy.2.1 (Json.num 5) rfl⟩

/-- Counterexample to C2 as stated: the object `{"method":"m","id":1}` has
an absent `jsonrpc` field, yet single-object parsing returns `Ok` of the
invalid-request error object — not a propagated `Err` as the claim demands
for the absent-version case. -/
theorem c2_version_mismatch_counterexample :
    JsonRpc.from_str (some (Json.obj [("method", Json.str "m"), ("id", Json.num 1)])) =
      .ok (JsonRpc.error Id.None RpcError.invalid_request) ∧
    (JsonRpc.from_str (some (Json.obj [("method", Json.str "m"), ("id", Json.num 1)]))).isOk =
      true :=
  ⟨rfl, rfl⟩

/-- Claim C2 (amended): for every JSON value that deserializes into one of
the four message shapes — which requires the `jsonrpc` field to be present
with a string value — if that string is not exactly `"2.0"`, single-object
parsing returns a propagated `Err` carrying the actual version string
received.  (When the field is absent or not a string, the structural match
fails and the result is the invalid-request error object instead, as the
counterexample shows.) -/
theorem c2_version_mismatch_amended (v : Json) (rpc : JsonRpc)
    (h : JsonRpc.from_value v = some rpc) (hv : rpc.get_version ≠ "2.0") :
    JsonRpc.from_str (some v) = .error (.InvalidVersionParsed rpc.get_version) := by
  simp [JsonRpc.from_str, JsonRpc.parse, h, JsonRpc.check_version, hv]

/-- Witness for C2 (amended): a request object with version `"1.0"` parses
to the propagated version-mismatch error carrying `"1.0"`. -/
theorem c2_version_mismatch_amended_witness :
    JsonRpc.from_value
        (Json.obj [("jsonrpc", Json.str "1.0"), ("method", Json.str "m"), ("id", Json.num 1)]) =
      some (JsonRpc.Request
        { jsonrpc := "1.0", method := "m", params := Option.none, id := Id.Num 1 }) ∧
    JsonRpc.from_str
        (some (Json.obj
          [("jsonrpc", Json.str "1.0"), ("method", Json.str "m"), ("id", Json.num 1)])) =
      .error (.InvalidVersionParsed "1.0") :=
  ⟨rfl,
    c2_version_mismatch_amended
      (Json.obj [("jsonrpc", Json.str "1.0"), ("method", Json.str "m"), ("id", Json.num 1)])
      (JsonRpc.Request { jsonrpc := "1.0", method := "m", params := Option.none, id := Id.Num 1 })
      rfl (by simp [JsonRpc.get_version])⟩

/-- Claim C3: a non-empty JSON array input makes the batch parsers return
exactly the element-wise single-object classification, in input order and
of equal length; a malformed element yields the invalid-request error
object at its own position (the map form shows every other position is the
classification of its own element, unchanged). -/
theorem c3_nonempty_batch_classification (vals : List Json) (h : vals ≠ []) :
    JsonRpc.from_str_vec (some (Json.arr vals)) =
      vals.map (fun v => JsonRpc.parse (some v)) ∧
    (JsonRpc.from_str_vec (some (Json.arr vals))).length = vals.length ∧
    (∀ v ∈ vals, JsonRpc.from_value v = Option.none →
      JsonRpc.parse (some v) = .ok (JsonRpc.error Id.None RpcError.invalid_request)) := by
  have he : vals.isEmpty = false := by simpa [List.isEmpty_iff] using h
  refine ⟨?_, ?_, ?_⟩
  · simp [JsonRpc.from_str_vec, asArray, JsonRpc.parse_vec, he]
  · simp [JsonRpc.from_str_vec, asArray, JsonRpc.parse_vec, he]
  · intro v _ hv
    simp [JsonRpc.parse, hv]

/-- Witness for C3: the two-element array `[1,2]` classifies element-wise. -/
theorem c3_nonempty_batch_classification_witness :
    [Json.num 1, Json.num 2] ≠ ([] : List Json) ∧
    JsonRpc.from_str_vec (some (Json.arr [Json.num 1, Json.num 2])) =
      [Json.num 1, Json.num 2].map (fun v => JsonRpc.parse (some v)) :=
  ⟨by simp, (c3_nonempty_batch_classification [Json.num 1, Json.num 2] (by simp)).1⟩

/-- Claim C4: an empty JSON array input makes the batch parsers return
exactly the one-element list holding `Ok` of the invalid-request error
object with an absent id. -/
theorem c4_empty_batch :
    JsonRpc.from_str_vec (some (Json.arr [])) =
      [.ok (JsonRpc.error Id.None RpcError.invalid_request)] := rfl

/-- Counterexample to C5 as stated: the input text `5` is valid JSON (so it
does not "fail to parse as any valid JSON at all"), yet the batch parser
returns the single-element parse-error list, contradicting "no other class
of input produces the single parse-error result". -/
theorem c5_batch_parse_error_counterexample :
    (some (Json.num 5) : Option Json) ≠ Option.none ∧
    JsonRpc.from_str_vec (some (Json.num 5)) =
      [.ok (JsonRpc.error Id.None RpcError.parse_error)] :=
  ⟨by simp, rfl⟩

/-- Claim C5 (amended): the batch parsers return the single-element
parse-error list whenever the input fails to deserialize as a JSON array —
that is, the raw text is not valid JSON at all, or it is valid JSON whose
top-level value is not an array; inputs that do deserialize as arrays
yield the empty-batch invalid-request singleton or the element-wise
classification instead. -/
theorem c5_batch_parse_error_amended (p : Option Json) :
    (p.bind asArray = Option.none →
      JsonRpc.from_str_vec p = [.ok (JsonRpc.error Id.None RpcError.parse_error)]) ∧
    (∀ vs, p.bind asArray = some vs → vs = [] →
      JsonRpc.from_str_vec p = [.ok (JsonRpc.error Id.None RpcError.invalid_request)]) ∧
    (∀ vs, p.bind asArray = some vs → vs ≠ [] →
      JsonRpc.from_str_vec p = vs.map (fun v => JsonRpc.parse (some v))) := by
  refine ⟨?_, ?_, ?_⟩
  · intro h
    simp [JsonRpc.from_str_vec, h, JsonRpc.parse_vec]
  · intro vs h hvs
    simp [JsonRpc.from_str_vec, h, hvs, JsonRpc.parse_vec]
  · intro vs h hvs
    have he : vs.isEmpty = false := by simpa [List.isEmpty_iff] using hvs
    simp [JsonRpc.from_str_vec, h, JsonRpc.parse_vec, he]

/-- Witness for C5 (amended): the valid-JSON non-array input `{}` fails the
array deserialization and yields the parse-error singleton. -/
theorem c5_batch_parse_error_amended_witness :
    ((some (Json.obj []) : Option Json).bind asArray) = Option.none ∧
    JsonRpc.from_str_vec (some (Json.obj [])) =
      [.ok (JsonRpc.error Id.None RpcError.parse_error)] :=
  ⟨rfl, (c5_batch_parse_error_amended (some (Json.obj []))).1 rfl⟩

/-- Counterexample to C6 as stated: the constructed message
`request_with_params(1, "m", Params::None)` serializes with a `params: null`
key, which re-parses to a request with params absent — the round trip does
not return a message equal to the original. -/
theorem c6_roundtrip_counterexample :
    JsonRpc.from_str (some ((JsonRpc.request_with_params (Id.Num 1) "m" Params.None).toJson)) =
      .ok (JsonRpc.request (Id.Num 1) "m") ∧
    JsonRpc.from_str (some ((JsonRpc.request_with_params (Id.Num 1) "m" Params.None).toJson)) ≠
      .ok (JsonRpc.request_with_params (Id.Num 1) "m" Params.None) := by
  have base :
      JsonRpc.from_str
          (some ((JsonRpc.request_with_params (Id.Num 1) "m" Params.None).toJson)) =
        .ok (JsonRpc.request (Id.Num 1) "m") := rfl
  refine ⟨base, ?_⟩
  rw [base]
  simp [JsonRpc.request, JsonRpc.request_with_params]

/-- Claim C6 (amended): for every message built with the public
constructors — over every `Id` whose numeric payload is an `i64`, every
method, every params value other than `Params::None`, every result, and
every error object whose code is an `i64` and whose data is not an
explicit JSON null — serializing and re-parsing with `from_str` returns
`Ok` of a message equal to the original; in particular the recovered id
equals the id the message was constructed with.  (Constructing with
`Params::None` or with `data = Some(null)` serializes a literal `null`
that `Option` re-reads as absent, which is what the counterexample
exhibits.) -/
theorem c6_construct_serialize_classify_roundtrip (id : Id) (m : String) (p : Params)
    (r : Json) (e : RpcError) (hid : id.wf = true) (hp : p ≠ Params.None)
    (he : e.wf = true) :
    JsonRpc.from_str (some (JsonRpc.request id m).toJson) = .ok (JsonRpc.request id m) ∧
    JsonRpc.from_str (some (JsonRpc.request_with_params id m p).toJson) =
      .ok (JsonRpc.request_with_params id m p) ∧
    JsonRpc.from_str (some (JsonRpc.notification m).toJson) = .ok (JsonRpc.notification m) ∧
    JsonRpc.from_str (some (JsonRpc.notification_with_params m p).toJson) =
      .ok (JsonRpc.notification_with_params m p) ∧
    JsonRpc.from_str (some (JsonRpc.success id r).toJson) = .ok (JsonRpc.success id r) ∧
    JsonRpc.from_str (some (JsonRpc.error id e).toJson) = .ok (JsonRpc.error id e) ∧
    (JsonRpc.from_str (some (JsonRpc.request id m).toJson)).toOption.bind JsonRpc.get_id =
      some id := by
  have hidd := decodeId_toJson id hid
  have hedd := decodeRpcError_toJson e he
  refine ⟨?_, ?_, ?_, ?_, ?_, ?_, ?_⟩
  · simp [JsonRpc.from_str, JsonRpc.parse, JsonRpc.toJson, JsonRpc.request, Request.toJson,
      JsonRpc.from_value, decodeRequest, decodeString, decodeParamsField, jlookup, hidd,
      JsonRpc.check_version, JsonRpc.get_version]
  · cases p <;>
      simp_all [JsonRpc.from_str, JsonRpc.parse, JsonRpc.toJson, JsonRpc.request_with_params,
        Request.toJson, Params.toJson, JsonRpc.from_value, decodeRequest, decodeString,
        decodeParamsField, jlookup, JsonRpc.check_version, JsonRpc.get_version]
  · simp [JsonRpc.from_str, JsonRpc.parse, JsonRpc.toJson, JsonRpc.notification,
      Notification.toJson, JsonRpc.from_value, decodeRequest, decodeNotification, decodeString,
      decodeParamsField, jlookup, JsonRpc.check_version, JsonRpc.get_version]
  · cases p <;>
      simp_all [JsonRpc.from_str, JsonRpc.parse, JsonRpc.toJson,
        JsonRpc.notification_with_params, Notification.toJson, Params.toJson,
        JsonRpc.from_value, decodeRequest, decodeNotification, decodeString, decodeParamsField,
        jlookup, JsonRpc.check_version, JsonRpc.get_version]
  · simp [JsonRpc.from_str, JsonRpc.parse, JsonRpc.toJson, JsonRpc.success, Success.toJson,
      JsonRpc.from_value, decodeRequest, decodeNotification, decodeSuccess, decodeString,
      jlookup, hidd, JsonRpc.check_version, JsonRpc.get_version]
  · simp [JsonRpc.from_str, JsonRpc.parse, JsonRpc.toJson, JsonRpc.error, Error.toJson,
      JsonRpc.from_value, decodeRequest, decodeNotification, decodeSuccess, decodeError,
      decodeString, jlookup, hidd, hedd, JsonRpc.check_version, JsonRpc.get_version]
  · simp [JsonRpc.from_str, JsonRpc.parse, JsonRpc.toJson, JsonRpc.request, Request.toJson,
      JsonRpc.from_value, decodeRequest, decodeString, decodeParamsField, jlookup, hidd,
      JsonRpc.check_version, JsonRpc.get_version, JsonRpc.get_id, Except.toOption]

/-- Witness for C6 (amended): concrete request and error-response round
trips at id 3 with array params and a custom error. -/
theorem c6_construct_serialize_classify_roundtrip_witness :
    (Id.Num 3).wf = true ∧ Params.Array [Json.num 1] ≠ Params.None ∧
    (RpcError.custom 5 "x").wf = true ∧
    JsonRpc.from_str (some (JsonRpc.request (Id.Num 3) "mthd").toJson) =
      .ok (JsonRpc.request (Id.Num 3) "mthd") ∧
    JsonRpc.from_str (some (JsonRpc.error (Id.Num 3) (RpcError.custom 5 "x")).toJson) =
      .ok (JsonRpc.error (Id.Num 3) (RpcError.custom 5 "x")) :=
  ⟨rfl, fun h => Params.noConfusion h, rfl,
    (c6_construct_serialize_classify_roundtrip (Id.Num 3) "mthd" (Params.Array [Json.num 1])
      Json.null (RpcError.custom 5 "x") rfl (fun h => Params.noConfusion h) rfl).1,
    (c6_construct_serialize_classify_roundtrip (Id.Num 3) "mthd" (Params.Array [Json.num 1])
      Json.null (RpcError.custom 5 "x") rfl (fun h => Params.noConfusion h) rfl).2.2.2.2.2.1⟩

/-- Claim C7: serialized field presence.  A notification emits exactly
`jsonrpc` and `method` (plus `params` only when present) — never an `id`
key; a request without params emits no `params` key; an error object with
absent data emits exactly `code` and `message` — the `data` key is
omitted, not null; and deserializing an error object without a `data` key
succeeds with data absent. -/
theorem c7_serialized_field_presence (id : Id) (m : String) (p : Params) (e : RpcError)
    (c : Int) (msg : String) (hc : isI64 c = true) (he : e.data = Option.none) :
    jsonKeys (JsonRpc.notification m).toJson = some ["jsonrpc", "method"] ∧
    jsonKeys (JsonRpc.notification_with_params m p).toJson =
      some ["jsonrpc", "method", "params"] ∧
    jsonKeys (JsonRpc.request id m).toJson = some ["jsonrpc", "method", "id"] ∧
    jsonKeys (JsonRpc.request_with_params id m p).toJson =
      some ["jsonrpc", "method", "params", "id"] ∧
    jsonKeys e.toJson = some ["code", "message"] ∧
    decodeRpcError (Json.obj [("code", Json.num c), ("message", Json.str msg)]) =
      some { code := c, message := msg, data := Option.none } := by
  refine ⟨rfl, rfl, rfl, rfl, ?_, ?_⟩
  · simp [RpcError.toJson, he, jsonKeys]
  · simp [decodeRpcError, jlookup, decodeI64, decodeString, decodeDataField, hc]

/-- Witness for C7: a dataless custom error serializes to exactly `code`
and `message`, and the dataless wire form deserializes with data absent. -/
theorem c7_serialized_field_presence_witness :
    isI64 7 = true ∧ (RpcError.custom 7 "y").data = Option.none ∧
    jsonKeys (RpcError.custom 7 "y").toJson = some ["code", "message"] ∧
    decodeRpcError (Json.obj [("code", Json.num 7), ("message", Json.str "y")]) =
      some { code := 7, message := "y", data := Option.none } :=
  ⟨rfl, rfl,
    (c7_serialized_field_presence Id.None "m" Params.None (RpcError.custom 7 "y") 7 "y" rfl
      rfl).2.2.2.2.1,
    (c7_serialized_field_presence Id.None "m" Params.None (RpcError.custom 7 "y") 7 "y" rfl
      rfl).2.2.2.2.2⟩

/-- Claim C8: the five reserved error constructors return fixed
(code, message) pairs with no data; `server_error(n)` returns code `n`
with message "Server error"; `custom` returns exactly the caller-supplied
code and message with no data. -/
theorem c8_reserved_error_constructors (n : Int) (c : Int) (msg : String) :
    RpcError.parse_error = { code := -32700, message := "Parse error", data := Option.none } ∧
    RpcError.invalid_request =
      { code := -32600, message := "Invalid request", data := Option.none } ∧
    RpcError.method_not_found =
      { code := -32601, message := "Method not found", data := Option.none } ∧
    RpcError.invalid_params =
      { code := -32602, message := "Invalid params", data := Option.none } ∧
    RpcError.internal_error =
      { code := -32603, message := "Internal error", data := Option.none } ∧
    RpcError.server_error n = { code := n, message := "Server error", data := Option.none } ∧
    RpcError.custom c msg = { code := c, message := msg, data := Option.none } :=
  ⟨rfl, rfl, rfl, rfl, rfl, rfl, rfl⟩

/-- Claim C9: the generic JSON-value conversion of `Params` maps an array
to `Params::Array` with the same elements, an object to `Params::Map` with
the same entries, and every other JSON value (null, boolean, number,
string) to `Params::None`. -/
theorem c9_params_from_value (l : List Json) (m : List (String × Json)) (b : Bool) (n : Int)
    (s : String) :
    Params.from_value (Json.arr l) = Params.Array l ∧
    Params.from_value (Json.obj m) = Params.Map m ∧
    Params.from_value Json.null = Params.None ∧
    Params.from_value (Json.bool b) = Params.None ∧
    Params.from_value (Json.num n) = Params.None ∧
    Params.from_value (Json.str s) = Params.None :=
  ⟨rfl, rfl, rfl, rfl, rfl, rfl⟩

/-- Claim C10: when a JSON object has `jsonrpc = "2.0"`, a valid id, no
`method` key, and both a `result` key and a well-formed `error` object,
single-object parsing returns `Ok` of the Success variant carrying the
result value: the untagged deserializer tries Request, Notification,
Success, Error in declaration order, so Success wins and the `error` key
is ignored. -/
theorem c10_result_error_precedence (fields : List (String × Json)) (r e iJ : Json) (i : Id)
    (err : RpcError)
    (hm : jlookup fields "method" = Option.none)
    (hj : jlookup fields "jsonrpc" = some (Json.str "2.0"))
    (hr : jlookup fields "result" = some r)
    (_he : jlookup fields "error" = some e)
    (_hde : decodeRpcError e = some err)
    (hi : jlookup fields "id" = some iJ)
    (hdi : decodeId iJ = some i) :
    JsonRpc.from_str (some (Json.obj fields)) =
      .ok (JsonRpc.Success { jsonrpc := "2.0", result := r, id := i }) := by
  simp [JsonRpc.from_str, JsonRpc.parse, JsonRpc.from_value, decodeRequest, decodeNotification,
    decodeSuccess, hm, hj, hr, hi, hdi, decodeString, JsonRpc.check_version,
    JsonRpc.get_version]

/-- Witness for C10: an object with both `result: 7` and a well-formed
`error` member parses as Success carrying 7. -/
theorem c10_result_error_precedence_witness :
    JsonRpc.from_str (some (Json.obj [("jsonrpc", Json.str "2.0"), ("result", Json.num 7),
        ("error",
          Json.obj [("code", Json.num (-32600)), ("message", Json.str "Invalid request")]),
        ("id", Json.num 1)])) =
      .ok (JsonRpc.Success { jsonrpc := "2.0", result := Json.num 7, id := Id.Num 1 }) :=
  c10_result_error_precedence
    [("jsonrpc", Json.str "2.0"), ("result", Json.num 7),
      ("error", Json.obj [("code", Json.num (-32600)), ("message", Json.str "Invalid request")]),
      ("id", Json.num 1)]
    (Json.num 7)
    (Json.obj [("code", Json.num (-32600)), ("message", Json.str "Invalid request")])
    (Json.num 1) (Id.Num 1) RpcError.invalid_request rfl rfl rfl rfl rfl rfl rfl

end JsonRpcLite
